import Mathlib

/- Shallow embedding of gym_electric_motor/visualization/motor_dashboard_plots.py.

   Conventions:
   * Python floats are embedded as exact rationals (ℚ).
   * Python `int(q)` truncates toward zero (`pyInt`).
   * Python `a % b` (for nonzero `b`) is the floor-based remainder (`pyMod`).
   * List / ndarray item access and assignment wrap negative indices and raise
     IndexError for out-of-range indices (`pyGet`, `pySet`).
   * Fallible methods return a pair of the state after all side effects that
     happened before the (possible) exception, and an optional exception,
     mirroring Python's partial-mutation-then-raise semantics.
   * matplotlib axis objects are embedded as the data the module writes into
     them (`AxisState`); matplotlib line objects as the data last set on them. -/

set_option autoImplicit false

/-- Python exception kinds raised by the embedded code. -/
inductive PyErr where
  | attributeError (name : String)
  | indexError
  | typeError
  | assertionError
  | zeroDivisionError
  deriving DecidableEq

/-- Python values, as far as the constructors of this module inspect them.
The constructors only test truthiness and `type(x) is dict`. -/
inductive PyVal where
  | none
  | bool (b : Bool)
  | int (n : ℤ)
  | str (s : String)
  | list (xs : List PyVal)
  | dict (entries : List (String × PyVal))

/-- Python truthiness on the embedded values. -/
def truthy : PyVal → Bool
  | .none => false
  | .bool b => b
  | .int n => n != 0
  | .str s => s != ""
  | .list xs => !xs.isEmpty
  | .dict es => !es.isEmpty

/-- `type(x) is dict` on the embedded values. -/
def isDict : PyVal → Bool
  | .dict _ => true
  | _ => false

/-- Python `int()` on a rational: truncation toward zero. -/
def pyInt (q : ℚ) : ℤ :=
  if 0 ≤ q then Int.floor q else -Int.floor (-q)

/-- Python `a % b` for nonzero `b`: the remainder whose sign follows `b`.
Callers guard `b = 0` (ZeroDivisionError) themselves. -/
def pyMod (a b : ℚ) : ℚ :=
  a - b * (Int.floor (a / b) : ℚ)

/-- Python list / 1-d ndarray item assignment `l[i] = v`:
negative indices wrap once, out-of-range raises IndexError. -/
def pySet (l : List ℚ) (i : ℤ) (v : ℚ) : Except PyErr (List ℚ) :=
  let j := if i < 0 then i + (l.length : ℤ) else i
  if 0 ≤ j ∧ j < (l.length : ℤ) then .ok (l.set j.toNat v) else .error .indexError

/-- Python list / 1-d ndarray item access `l[i]`. -/
def pyGet (l : List ℚ) (i : ℤ) : Except PyErr ℚ :=
  let j := if i < 0 then i + (l.length : ℤ) else i
  if 0 ≤ j ∧ j < (l.length : ℤ) then .ok (l.getD j.toNat 0) else .error .indexError

/-- The part of a matplotlib axis this module writes: x/y limits, the x
positions of the vertical lines drawn by `axvline`, and the grid flag. -/
structure AxisState where
  xlim : ℚ × ℚ
  ylim : ℚ × ℚ
  vlines : List ℚ
  grid : Bool
  deriving DecidableEq

/-- The environment data the plots read: `env.physical_system.tau`. -/
structure Env where
  tau : ℚ

/-- A matplotlib line object, embedded as the data last set on it. -/
def Line : Type := List ℚ × List ℚ

/-- A `collections.deque` with a `maxlen` bound. -/
structure Deque where
  data : List ℚ
  maxlen : ℕ
  deriving DecidableEq

/-- `deque.append`: appends on the right, dropping from the left beyond `maxlen`. -/
def Deque.append (d : Deque) (v : ℚ) : Deque :=
  let l := d.data ++ [v]
  ⟨if d.maxlen < l.length then l.drop (l.length - d.maxlen) else l, d.maxlen⟩

/-- Instance state established by `MotorDashboardPlot.__init__`
(source lines 17-23): `_axis` and `_line_cfg`. -/
structure MotorDashboardPlotState where
  axis : Option AxisState
  line_cfg : PyVal

/-- `MotorDashboardPlot.__init__(line_config=None)` (lines 17-23):
`line_config = line_config or ***` replaces falsy arguments by the empty dict,
then `assert type(line_config) is dict`, then
`self._line_cfg = self._default_line_cfg.update(line_config)`, which is the
return value of `dict.update`, i.e. Python `None`. -/
def MotorDashboardPlot.init (line_config : PyVal) : Except PyErr MotorDashboardPlotState :=
  let lc := if truthy line_config then line_config else PyVal.dict []
  if isDict lc then
    .ok { axis := .none, line_cfg := PyVal.none }
  else
    .error .assertionError

/-- `True` when `MotorDashboardPlot.__init__` raises (its only raise is the
`assert`). -/
def MotorDashboardPlot.initRaises (line_config : PyVal) : Bool :=
  match MotorDashboardPlot.init line_config with
  | .error _ => true
  | .ok _ => false

/-- `MotorDashboardPlot.set_env` (lines 34-42): body is `pass`. -/
def MotorDashboardPlot.set_env (p : MotorDashboardPlotState) (_ : Env) : MotorDashboardPlotState :=
  p

/-- `MotorDashboardPlot.on_reset_begin` (lines 65-67): body is `pass`. -/
def MotorDashboardPlot.on_reset_begin (p : MotorDashboardPlotState) : MotorDashboardPlotState :=
  p

/-- Instance state established by `StepPlot.__init__` (lines 78-86), on top of
the base class. `_tau` and `_no_x_points` are `None` until `set_env` runs.
`y_lim = (-inf, inf)` is omitted: infinities are not rationals and no claim
reads it. -/
structure StepPlotState extends MotorDashboardPlotState where
  no_x_points : Option ℤ
  t : ℚ
  t_data : List ℚ
  tau : Option ℚ
  x_width : ℚ
  update_cycle : ℤ

/-- `StepPlot.__init__(x_width=1, update_cycle=1000, **kwargs)` (lines 78-86). -/
def StepPlot.init (x_width : ℚ) (update_cycle : ℤ) (line_config : PyVal) :
    Except PyErr StepPlotState :=
  match MotorDashboardPlot.init line_config with
  | .error e => .error e
  | .ok b =>
      .ok { toMotorDashboardPlotState := b, no_x_points := .none, t := 0,
            t_data := [], tau := .none, x_width := x_width,
            update_cycle := update_cycle }

/-- `StepPlot.on_reset_end` (lines 88-90): body is `pass`. -/
def StepPlot.on_reset_end (p : StepPlotState) (_ : ℤ) (_ : List ℚ) (_ : List ℚ) :
    StepPlotState :=
  p

/-- `int(self.x_width / self._tau)` (line 101): the number of points on the
x-axis of a step plot. -/
def noXPoints (x_width tau : ℚ) : ℤ :=
  pyInt (x_width / tau)

/-- `int((self._t % self.x_width) / self._tau)` (lines 225, 276, 349): the
ring-buffer write index computed by every step method. -/
def writeIdx (t x_width tau : ℚ) : ℤ :=
  pyInt (pyMod t x_width / tau)

/-- `StepPlot.set_env` (lines 95-101): `set_xlim(-x_width, 0)`, store `tau`,
compute `no_x_points`. -/
def StepPlot.set_env (p : StepPlotState) (env : Env) : StepPlotState × Option PyErr :=
  match p.axis with
  | .none => (p, some (.attributeError "set_xlim"))
  | some ax =>
      let p1 := { p with axis := some { ax with xlim := (-p.x_width, 0) } }
      let p2 := { p1 with tau := some env.tau }
      if env.tau = 0 then (p2, some .zeroDivisionError)
      else ({ p2 with no_x_points := some (noXPoints p2.x_width env.tau) }, .none)

/-- `StepPlot.update` (lines 103-109): widen the x-window to
`(upper - x_width, upper)` with `upper = max(t, previous upper limit)`. -/
def StepPlot.update (p : StepPlotState) : StepPlotState × Option PyErr :=
  match p.axis with
  | .none => (p, some (.attributeError "get_xlim"))
  | some ax =>
      let upper := max p.t ax.xlim.2
      let lower := upper - p.x_width
      ({ p with axis := some { ax with xlim := (lower, upper) } }, .none)

/-- `if done: self._axis.axvline(self._t, ...)` — the common tail of the three
step methods (lines 230-231, 280-281, 359-360). -/
def stepDone (p : StepPlotState) (done : Bool) (t : ℚ) : StepPlotState × Option PyErr :=
  if done then
    match p.axis with
    | .none => (p, some (.attributeError "axvline"))
    | some ax => ({ p with axis := some { ax with vlines := ax.vlines ++ [t] } }, .none)
  else (p, .none)

/-- Embedded action argument: a scalar for discrete action spaces, an array
for continuous ones. -/
inductive ActionV where
  | disc (n : ℤ)
  | box (xs : List ℚ)

/-- Instance state of `StatePlot` (lines 152-182). The fields used only by
`set_modules`, `initialize` and `update` rendering (`_state_space`, `_limits`,
`_normalized`, the line handles) are not read by any claim and are omitted.
`_state_idx` and `_referenced` are `None` until `set_modules` runs. -/
structure StatePlotState extends StepPlotState where
  state : String
  state_idx : Option ℤ
  referenced : Option Bool
  state_data : List ℚ
  ref_data : List ℚ

/-- `StatePlot.__init__(state, limit_line_cfg=None, **kwargs)` (lines 152-182):
`limit_line_cfg = limit_line_cfg or ***; assert type(limit_line_cfg) is dict`,
then field setup, then `super().__init__(**kwargs)` (which may itself assert
on `line_config`). -/
def StatePlot.init (state : String) (limit_line_cfg : PyVal) (x_width : ℚ)
    (update_cycle : ℤ) (line_config : PyVal) : Except PyErr StatePlotState :=
  let llc := if truthy limit_line_cfg then limit_line_cfg else PyVal.dict []
  if isDict llc then
    match StepPlot.init x_width update_cycle line_config with
    | .error e => .error e
    | .ok sp =>
        .ok { toStepPlotState := sp, state := state, state_idx := .none,
              referenced := .none, state_data := [], ref_data := [] }
  else .error .assertionError

/-- `True` when `StatePlot.__init__` raises. -/
def StatePlot.initRaises (state : String) (limit_line_cfg : PyVal) (x_width : ℚ)
    (update_cycle : ℤ) (line_config : PyVal) : Bool :=
  match StatePlot.init state limit_line_cfg x_width update_cycle line_config with
  | .error _ => true
  | .ok _ => false

/-- Truthiness of the `_referenced` field: Python `None` is falsy. -/
def refTruthy : Option Bool → Bool
  | .none => false
  | some b => b

/-- `StatePlot.step` (lines 221-231):
`t += tau`; read `state[state_idx]` and `reference[state_idx]`;
`idx = int((t % x_width) / tau)`; write `t_data[idx]`, `state_data[idx]` and,
if referenced, `ref_data[idx]`; on `done` draw a vertical line. -/
def StatePlot.step (p : StatePlotState) (_ : ℤ) (state reference : List ℚ)
    (_ : Option ActionV) (_ : ℚ) (done : Bool) : StatePlotState × Option PyErr :=
  match p.tau with
  | .none => (p, some .typeError)
  | some τ =>
      let t' := p.t + τ
      let p1 := { p with t := t' }
      match p.state_idx with
      | .none => (p1, some .typeError)
      | some si =>
          match pyGet state si with
          | .error e => (p1, some e)
          | .ok stv =>
              match pyGet reference si with
              | .error e => (p1, some e)
              | .ok refv =>
                  if p.x_width = 0 then (p1, some .zeroDivisionError)
                  else if τ = 0 then (p1, some .zeroDivisionError)
                  else
                    let idx := writeIdx t' p.x_width τ
                    match pySet p1.t_data idx t' with
                    | .error e => (p1, some e)
                    | .ok td =>
                        let p2 := { p1 with t_data := td }
                        match pySet p2.state_data idx stv with
                        | .error e => (p2, some e)
                        | .ok sd =>
                            let p3 := { p2 with state_data := sd }
                            if refTruthy p.referenced then
                              match pySet p3.ref_data idx refv with
                              | .error e => (p3, some e)
                              | .ok rd =>
                                  let p4 := { p3 with ref_data := rd }
                                  let q := stepDone p4.toStepPlotState done t'
                                  ({ p4 with toStepPlotState := q.1 }, q.2)
                            else
                              let q := stepDone p3.toStepPlotState done t'
                              ({ p3 with toStepPlotState := q.1 }, q.2)

/-- Instance state of `RewardPlot` (lines 252-256). `_reward_range`,
`_reward_line` and `_reward_data` are `None` until `set_modules` /
`initialize` run. -/
structure RewardPlotState extends StepPlotState where
  reward_range : Option (ℚ × ℚ)
  reward_line : Option Line
  reward_data : Option (List ℚ)

/-- `RewardPlot.__init__()` (lines 252-256): fields, then `super().__init__()`
with all defaults. -/
def RewardPlot.init : Except PyErr RewardPlotState :=
  match StepPlot.init 1 1000 PyVal.none with
  | .error e => .error e
  | .ok sp =>
      .ok { toStepPlotState := sp, reward_range := .none, reward_line := .none,
            reward_data := .none }

/-- `RewardPlot.step` (lines 274-281): `t += tau`;
`idx = int((t % x_width) / tau)`; write `t_data[idx]` and `reward_data[idx]`;
on `done` draw a vertical line. Assigning into a `None` `_reward_data` is a
TypeError. -/
def RewardPlot.step (p : RewardPlotState) (_ : ℤ) (_ : List ℚ) (_ : List ℚ)
    (_ : Option ActionV) (reward : ℚ) (done : Bool) : RewardPlotState × Option PyErr :=
  match p.tau with
  | .none => (p, some .typeError)
  | some τ =>
      let t' := p.t + τ
      let p1 := { p with t := t' }
      if p.x_width = 0 then (p1, some .zeroDivisionError)
      else if τ = 0 then (p1, some .zeroDivisionError)
      else
        let idx := writeIdx t' p.x_width τ
        match pySet p1.t_data idx t' with
        | .error e => (p1, some e)
        | .ok td =>
            let p2 := { p1 with t_data := td }
            match p2.reward_data with
            | .none => (p2, some .typeError)
            | some rdata =>
                match pySet rdata idx reward with
                | .error e => (p2, some e)
                | .ok rd =>
                    let p3 := { p2 with reward_data := some rd }
                    let q := stepDone p3.toStepPlotState done t'
                    ({ p3 with toStepPlotState := q.1 }, q.2)

/-- Instance state of `ActionPlot` (lines 292-306). `_action_idx`,
`_action_type` and `_action_data` are `None` until `set_modules` /
`initialize` run. -/
structure ActionPlotState extends StepPlotState where
  action : String
  action_idx : Option ℤ
  action_type : Option String
  action_data : Option (List ℚ)

/-- `ActionPlot.__init__(action)` (lines 292-306): `super().__init__()` with
all defaults, then fields. -/
def ActionPlot.init (action : String) : Except PyErr ActionPlotState :=
  match StepPlot.init 1 1000 PyVal.none with
  | .error e => .error e
  | .ok sp =>
      .ok { toStepPlotState := sp, action := action, action_idx := .none,
            action_type := .none, action_data := .none }

/-- `ActionPlot.step` (lines 347-360): `t += tau`;
`idx = int((t % x_width) / tau)`; write `t_data[idx]`; if `action` is not
`None`, write the (scalar or indexed) action into `action_data[idx]`;
on `done` draw a vertical line. -/
def ActionPlot.step (p : ActionPlotState) (_ : ℤ) (_ : List ℚ) (_ : List ℚ)
    (action : Option ActionV) (_ : ℚ) (done : Bool) : ActionPlotState × Option PyErr :=
  match p.tau with
  | .none => (p, some .typeError)
  | some τ =>
      let t' := p.t + τ
      let p1 := { p with t := t' }
      if p.x_width = 0 then (p1, some .zeroDivisionError)
      else if τ = 0 then (p1, some .zeroDivisionError)
      else
        let idx := writeIdx t' p.x_width τ
        match pySet p1.t_data idx t' with
        | .error e => (p1, some e)
        | .ok td =>
            let p2 := { p1 with t_data := td }
            match action with
            | .none =>
                let q := stepDone p2.toStepPlotState done t'
                ({ p2 with toStepPlotState := q.1 }, q.2)
            | some a =>
                match p2.action_data with
                | .none => (p2, some .typeError)
                | some adata =>
                    let wr : Except PyErr (List ℚ) :=
                      if p2.action_type = some "Discrete" then
                        match a with
                        | .disc n => pySet adata idx (n : ℚ)
                        | .box _ => .error .typeError
                      else
                        match a with
                        | .disc _ => .error .typeError
                        | .box xs =>
                            match p2.action_idx with
                            | .none => .error .typeError
                            | some ai =>
                                match pyGet xs ai with
                                | .error e => .error e
                                | .ok v => pySet adata idx v
                    match wr with
                    | .error e => (p2, some e)
                    | .ok ad =>
                        let p3 := { p2 with action_data := some ad }
                        let q := stepDone p3.toStepPlotState done t'
                        ({ p3 with toStepPlotState := q.1 }, q.2)

/-- Instance state of `MeanEpisodeRewardPlot` (lines 380-391) on top of the
base class (`EpisodeBasedPlot` adds no fields).

The fields `x_width`, `reward_line_cfg` and `mode` are read by `initialize` /
`update` but assigned NOWHERE in `MeanEpisodeRewardPlot`, `EpisodeBasedPlot`
or `MotorDashboardPlot`; `reward_range` is assigned only by `set_modules`.
For these four fields `.none` models the attribute being absent, and reading
them raises AttributeError. For `reward_line`, `reward_data` and `x`, `.none`
models the Python value `None` stored by `__init__`. -/
structure MeanEpisodeRewardPlotState extends MotorDashboardPlotState where
  reward_line : Option Line
  reward_data : Option Deque
  reward_sum : ℚ
  episode_length : ℤ
  episode_count : ℤ
  x : Option Deque
  x_width : Option ℚ
  reward_line_cfg : Option PyVal
  mode : Option String
  reward_range : Option (ℚ × ℚ)

/-- `MeanEpisodeRewardPlot.__init__()` (lines 380-391): base init with the
default `line_config=None` (which cannot assert), then the fields above. -/
def MeanEpisodeRewardPlot.init : MeanEpisodeRewardPlotState :=
  { axis := .none, line_cfg := PyVal.none, reward_line := .none,
    reward_data := .none, reward_sum := 0, episode_length := 0,
    episode_count := 0, x := .none, x_width := .none,
    reward_line_cfg := .none, mode := .none, reward_range := .none }

/-- `MeanEpisodeRewardPlot.set_modules` (lines 412-414). -/
def MeanEpisodeRewardPlot.set_modules (s : MeanEpisodeRewardPlotState)
    (reward_range : ℚ × ℚ) : MeanEpisodeRewardPlotState :=
  { s with reward_range := some reward_range }

/-- `MeanEpisodeRewardPlot.step` (lines 416-419):
`_reward_sum += reward; _episode_length = k`. -/
def MeanEpisodeRewardPlot.step (s : MeanEpisodeRewardPlotState) (k : ℤ)
    (reward : ℚ) : MeanEpisodeRewardPlotState :=
  { s with reward_sum := s.reward_sum + reward, episode_length := k }

/-- `MeanEpisodeRewardPlot.initialize` (lines 393-410; named `initAxis` here):
`_axis = axis; _axis.grid(True)`, then
`self.x = deque(np.zeros(self.x_width), self.x_width)` — which reads the
never-assigned attribute `x_width` and raises AttributeError — then the
`reward_data` deque, the `plot(**self.reward_line_cfg)` call (another
never-assigned attribute) and the `_reward_range`-based axis limits. -/
def MeanEpisodeRewardPlot.initAxis (s : MeanEpisodeRewardPlotState)
    (ax : AxisState) : MeanEpisodeRewardPlotState × Option PyErr :=
  let s0 := { s with axis := some { ax with grid := true } }
  match s0.x_width with
  | .none => (s0, some (.attributeError "x_width"))
  | some w =>
      let n := (pyInt w).toNat
      let s1 := { s0 with x := some ⟨List.replicate n 0, n⟩,
                          reward_data := some ⟨List.replicate n 0, n⟩ }
      match s1.reward_line_cfg with
      | .none => (s1, some (.attributeError "reward_line_cfg"))
      | some _ =>
          let s2 := { s1 with
            reward_line := some ((List.replicate n (0 : ℚ), List.replicate n (0 : ℚ)) : Line) }
          match s2.reward_range with
          | .none => (s2, some (.attributeError "_reward_range"))
          | some rr =>
              match s2.axis with
              | .none => (s2, some (.attributeError "set_xlim"))
              | some ax2 =>
                  let spacing := (1 / 10 : ℚ) * (rr.2 - rr.1)
                  ({ s2 with axis := some { ax2 with
                      xlim := (0, w),
                      ylim := (rr.1 - spacing, rr.2 + spacing) } }, .none)

/-- `MeanEpisodeRewardPlot.update` (lines 421-429):
`x.append(episode_count)` (AttributeError on the `None` stored by `__init__`),
`_reward_data.append(_reward_sum / _episode_length)` (ZeroDivisionError when
the length is 0), `_reward_line.set_data(...)`, then the read of the
never-assigned attribute `mode`. -/
def MeanEpisodeRewardPlot.update (s : MeanEpisodeRewardPlotState) :
    MeanEpisodeRewardPlotState × Option PyErr :=
  match s.x with
  | .none => (s, some (.attributeError "append"))
  | some xd =>
      let xd1 := xd.append (s.episode_count : ℚ)
      let s1 := { s with x := some xd1 }
      match s1.reward_data with
      | .none => (s1, some (.attributeError "append"))
      | some rd =>
          if s1.episode_length = 0 then (s1, some .zeroDivisionError)
          else
            let rd1 := rd.append (s1.reward_sum / (s1.episode_length : ℚ))
            let s2 := { s1 with reward_data := some rd1 }
            match s2.reward_line with
            | .none => (s2, some (.attributeError "set_data"))
            | some _ =>
                let s3 := { s2 with reward_line := some ((xd1.data, rd1.data) : Line) }
                match s3.mode with
                | .none => (s3, some (.attributeError "mode"))
                | some m =>
                    if m = "continuous" then
                      match s3.axis with
                      | .none => (s3, some (.attributeError "set_xlim"))
                      | some ax =>
                          match s3.x_width with
                          | .none => (s3, some (.attributeError "x_width"))
                          | some w =>
                              ({ s3 with axis := some { ax with
                                  xlim := (max 0 ((s3.episode_count : ℚ) - w),
                                           (s3.episode_count : ℚ) + (2 / 10 : ℚ) * w) } },
                               .none)
                    else (s3, .none)

/-- `MeanEpisodeRewardPlot.reset` (lines 431-437): when `_episode_length > 0`
call `update` (an exception propagates, skipping the rest), then
`episode_count += 1; _reward_sum = 0`. `_episode_length` is never reset. -/
def MeanEpisodeRewardPlot.reset (s : MeanEpisodeRewardPlotState) :
    MeanEpisodeRewardPlotState × Option PyErr :=
  if 0 < s.episode_length then
    match MeanEpisodeRewardPlot.update s with
    | (s1, some e) => (s1, some e)
    | (s1, Option.none) =>
        ({ s1 with episode_count := s1.episode_count + 1, reward_sum := 0 }, .none)
  else
    ({ s with episode_count := s.episode_count + 1, reward_sum := 0 }, .none)

/-- `True` exactly on the embedded Python `None`. -/
def PyVal.isNone : PyVal → Bool
  | .none => true
  | _ => false

/-- A sequence of `StepPlot.update` calls, with arbitrary values of the time
counter `_t` in between (the dashboard advances `_t` through step calls
between updates). -/
def StepPlot.updateSeq (p : StepPlotState) (ts : List ℚ) : StepPlotState :=
  ts.foldl (fun q tv => (StepPlot.update { q with t := tv }).1) p

/-- `n` consecutive `StatePlot.step` calls with fixed arguments. -/
def StatePlot.stepN (p : StatePlotState) (k : ℤ) (st rf : List ℚ)
    (a : Option ActionV) (r : ℚ) (d : Bool) : ℕ → StatePlotState
  | 0 => p
  | m + 1 => (StatePlot.step (StatePlot.stepN p k st rf a r d m) k st rf a r d).1

/-- `n` consecutive `RewardPlot.step` calls with fixed arguments. -/
def RewardPlot.stepN (p : RewardPlotState) (k : ℤ) (st rf : List ℚ)
    (a : Option ActionV) (r : ℚ) (d : Bool) : ℕ → RewardPlotState
  | 0 => p
  | m + 1 => (RewardPlot.step (RewardPlot.stepN p k st rf a r d m) k st rf a r d).1

/-- `n` consecutive `ActionPlot.step` calls with fixed arguments. -/
def ActionPlot.stepN (p : ActionPlotState) (k : ℤ) (st rf : List ℚ)
    (a : Option ActionV) (r : ℚ) (d : Bool) : ℕ → ActionPlotState
  | 0 => p
  | m + 1 => (ActionPlot.step (ActionPlot.stepN p k st rf a r d m) k st rf a r d).1

/-- `True` when `MotorDashboardPlot.__init__(line_config)` either raises or
produces an instance whose `_line_cfg` is Python `None`. -/
def initLineCfgNone (lc : PyVal) : Bool :=
  match MotorDashboardPlot.init lc with
  | .ok s => s.line_cfg.isNone
  | .error _ => true

/-- `True` when `StatePlot.__init__` either raises or produces an instance
whose `_line_cfg` is Python `None`. -/
def statePlotInitLineCfgNone (st : String) (llc : PyVal) (w : ℚ) (uc : ℤ)
    (lcc : PyVal) : Bool :=
  match StatePlot.init st llc w uc lcc with
  | .ok s => s.line_cfg.isNone
  | .error _ => true

/-! Concrete test fixtures used by witnesses and counterexamples. -/

/-- A fresh axis. -/
def axis0 : AxisState :=
  { xlim := (0, 0), ylim := (0, 0), vlines := [], grid := false }

/-- A `StepPlot` after `set_env` with `tau = 1/2`, `x_width = 1`, at `t = 3/2`. -/
def c3fix : StepPlotState :=
  { axis := some { axis0 with xlim := (-1, 0) }, line_cfg := PyVal.none,
    no_x_points := some 2, t := 3/2, t_data := [0, 0], tau := some (1/2),
    x_width := 1, update_cycle := 1000 }

/-- A `StatePlot` with `tau = 1/2`, `x_width = 1` and allocated buffers of
length `no_x_points = 2`. -/
def c4fix : StatePlotState :=
  { axis := some axis0, line_cfg := PyVal.none, no_x_points := some 2, t := 0,
    t_data := [0, 0], tau := some (1/2), x_width := 1, update_cycle := 1000,
    state := "omega", state_idx := some 0, referenced := some true,
    state_data := [0, 0], ref_data := [0, 0] }

/-- A `StatePlot` with `tau = 2/5`, `x_width = 1` and allocated buffers of
length `no_x_points = int(1 / (2/5)) = 2`: `tau` does not divide `x_width`. -/
def c4bad : StatePlotState :=
  { axis := some axis0, line_cfg := PyVal.none, no_x_points := some 2, t := 0,
    t_data := [0, 0], tau := some (2/5), x_width := 1, update_cycle := 1000,
    state := "omega", state_idx := some 0, referenced := some true,
    state_data := [0, 0], ref_data := [0, 0] }

/-- The state after the first (in-bounds) step on `c4bad`. -/
def c4bad1 : StatePlotState :=
  (StatePlot.step c4bad 1 [1/2] [1/3] .none 0 false).1

/-- A `RewardPlot` with `tau = 1/2`, `x_width = 1`, buffers of length 2. -/
def c6fixR : RewardPlotState :=
  { axis := some axis0, line_cfg := PyVal.none, no_x_points := some 2, t := 0,
    t_data := [0, 0], tau := some (1/2), x_width := 1, update_cycle := 1000,
    reward_range := some (-1, 0), reward_line := some (([], []) : Line),
    reward_data := some [0, 0] }

/-- An `ActionPlot` with `tau = 1/2`, `x_width = 1`, buffers of length 2. -/
def c6fixA : ActionPlotState :=
  { axis := some axis0, line_cfg := PyVal.none, no_x_points := some 2, t := 0,
    t_data := [0, 0], tau := some (1/2), x_width := 1, update_cycle := 1000,
    action := "action_0", action_idx := some 0, action_type := some "Discrete",
    action_data := some [0, 0] }

/-- A `StatePlot` with `tau = 1/2`, `x_width = 1`, buffers of length 2, not
referenced. -/
def c6fixS : StatePlotState :=
  { axis := some axis0, line_cfg := PyVal.none, no_x_points := some 2, t := 0,
    t_data := [0, 0], tau := some (1/2), x_width := 1, update_cycle := 1000,
    state := "torque", state_idx := some 0, referenced := some false,
    state_data := [0, 0], ref_data := [0, 0] }

/-- A `RewardPlot` with `tau = 2/3`, `x_width = 1` and buffers of length
`no_x_points = int(1 / (2/3)) = 1`: `tau` does not divide `x_width`, and
already the first step computes the out-of-range index 1. -/
def c6bad : RewardPlotState :=
  { axis := some axis0, line_cfg := PyVal.none, no_x_points := some 1, t := 0,
    t_data := [0], tau := some (2/3), x_width := 1, update_cycle := 1000,
    reward_range := some (-1, 0), reward_line := some (([], []) : Line),
    reward_data := some [0] }

/-- `MeanEpisodeRewardPlot` right after one step call with `k = 1`,
`reward = 5`. -/
def mfix : MeanEpisodeRewardPlotState :=
  MeanEpisodeRewardPlot.step MeanEpisodeRewardPlot.init 1 5

/-! ### Arithmetic helper lemmas -/

lemma pyInt_natCast (n : ℕ) : pyInt (n : ℚ) = (n : ℤ) := by
  rw [pyInt, if_pos (by positivity)]
  exact Int.floor_natCast n

lemma div_cast_cancel (n N : ℕ) (τ : ℚ) (hτ : τ ≠ 0) :
    ((n : ℚ) * τ) / ((N : ℚ) * τ) = (n : ℚ) / (N : ℚ) := by
  rw [mul_div_mul_comm, div_self hτ, mul_one]

lemma floor_natCast_div (n N : ℕ) :
    Int.floor ((n : ℚ) / (N : ℚ)) = ((n / N : ℕ) : ℤ) := by
  have h0 : (0 : ℚ) ≤ (n : ℚ) / (N : ℚ) := by positivity
  rw [← Int.natCast_floor_eq_floor h0, Nat.floor_div_eq_div]

lemma pyMod_natCast_mul (τ : ℚ) (hτ : 0 < τ) (n N : ℕ) :
    pyMod ((n : ℚ) * τ) ((N : ℚ) * τ) = ((n % N : ℕ) : ℚ) * τ := by
  have hτ0 : τ ≠ 0 := ne_of_gt hτ
  rw [pyMod, div_cast_cancel n N τ hτ0, floor_natCast_div]
  have hc : ((N : ℚ)) * ((n / N : ℕ) : ℚ) + ((n % N : ℕ) : ℚ) = (n : ℚ) := by
    exact_mod_cast congrArg (Nat.cast (R := ℚ)) (Nat.div_add_mod n N)
  rw [Int.cast_natCast]
  linear_combination (-τ) * hc

lemma writeIdx_natCast_mul (τ : ℚ) (hτ : 0 < τ) (n N : ℕ) :
    writeIdx ((n : ℚ) * τ) ((N : ℚ) * τ) τ = ((n % N : ℕ) : ℤ) := by
  rw [writeIdx, pyMod_natCast_mul τ hτ n N, mul_div_cancel_right₀ _ (ne_of_gt hτ)]
  exact pyInt_natCast (n % N)

lemma noXPoints_natCast_mul (τ : ℚ) (hτ : 0 < τ) (N : ℕ) :
    noXPoints ((N : ℚ) * τ) τ = (N : ℤ) := by
  rw [noXPoints, mul_div_cancel_right₀ _ (ne_of_gt hτ)]
  exact pyInt_natCast N

/-- C1 (amended): under the additional hypothesis that `x_width` is an exact
integer multiple of `tau` (`x_width = N * tau` with `no_x_points = N >= 1`),
the ring-buffer write index `idx = int(((n * tau) mod x_width) / tau)`
computed in `step` satisfies `0 <= idx < no_x_points` for every step count
`n >= 1`, so every per-step buffer write lands inside the fixed-capacity
buffer. (Without that hypothesis the claim is false: see the
counterexample.) -/
theorem c1_index_in_bounds (τ w : ℚ) (N n : ℕ)
    (hτ : 0 < τ) (hw : w = (N : ℚ) * τ) (hN : 1 ≤ N) (_hn : 1 ≤ n) :
    noXPoints w τ = (N : ℤ) ∧
    0 ≤ writeIdx ((n : ℚ) * τ) w τ ∧
    writeIdx ((n : ℚ) * τ) w τ < noXPoints w τ := by
  subst hw
  have hN0 : 0 < N := hN
  refine ⟨noXPoints_natCast_mul τ hτ N, ?_, ?_⟩
  · rw [writeIdx_natCast_mul τ hτ n N]
    positivity
  · rw [writeIdx_natCast_mul τ hτ n N, noXPoints_natCast_mul τ hτ N]
    exact_mod_cast Nat.mod_lt n hN0

/-- Witness for C1 at `tau = 1/2`, `x_width = 1`, `N = 2`, `n = 3`. -/
theorem c1_index_in_bounds_witness :
    noXPoints 1 (1/2) = ((2 : ℕ) : ℤ) ∧
    0 ≤ writeIdx (((3 : ℕ) : ℚ) * (1/2)) 1 (1/2) ∧
    writeIdx (((3 : ℕ) : ℚ) * (1/2)) 1 (1/2) < noXPoints 1 (1/2) :=
  c1_index_in_bounds (1/2) 1 2 3 (by norm_num) (by norm_num) (by norm_num)
    (by norm_num)

/-- Counterexample to C1 as stated: with `tau = 3/10 > 0` and `x_width = 1`
the buffer capacity is `no_x_points = int(1 / (3/10)) = 3`, but the third
step (`n = 3`, `t = 9/10`) computes index `int((9/10) / (3/10)) = 3`, and the
buffer write at index 3 into the 3-element buffer raises IndexError. -/
theorem c1_counterexample :
    (0 : ℚ) < 3/10 ∧
    noXPoints 1 (3/10) = 3 ∧
    writeIdx (((3 : ℕ) : ℚ) * (3/10)) 1 (3/10) = 3 ∧
    pySet [0, 0, 0] (writeIdx (((3 : ℕ) : ℚ) * (3/10)) 1 (3/10)) (9/10) =
      Except.error PyErr.indexError := by
  have hidx : writeIdx (((3 : ℕ) : ℚ) * (3/10)) 1 (3/10) = 3 := by
    norm_num [writeIdx, pyMod, pyInt]
  refine ⟨by norm_num, by norm_num [noXPoints, pyInt], hidx, ?_⟩
  rw [hidx]
  norm_num [pySet]

/-- C5 (amended): `MotorDashboardPlot.__init__` raises AssertionError if and
only if `line_config` is truthy and not a dict, and `StatePlot.__init__`
raises AssertionError if and only if `limit_line_cfg` or the forwarded
`line_config` is truthy and not a dict. Because of
`line_config = line_config or ***`, falsy non-dict arguments such as `[]`,
`0`, `""` or `False` are replaced by the empty dict and accepted, so
"neither None nor a dict" is not the raising condition (see the
counterexample); no other validation is performed. -/
theorem c5_assert_iff (lc llc lcc : PyVal) (st : String) (w : ℚ) (uc : ℤ) :
    MotorDashboardPlot.initRaises lc = (truthy lc && !isDict lc) ∧
    StatePlot.initRaises st llc w uc lcc =
      ((truthy llc && !isDict llc) || (truthy lcc && !isDict lcc)) := by
  have hnil : isDict (PyVal.dict []) = true := rfl
  constructor
  · cases h1 : truthy lc <;> cases h2 : isDict lc <;>
      simp [MotorDashboardPlot.initRaises, MotorDashboardPlot.init, h1, h2, hnil]
  · cases h1 : truthy llc <;> cases h2 : isDict llc <;>
      cases h3 : truthy lcc <;> cases h4 : isDict lcc <;>
      simp [StatePlot.initRaises, StatePlot.init, StepPlot.init,
        MotorDashboardPlot.init, h1, h2, h3, h4, hnil]

/-- Counterexample to C5 as stated: `line_config = []` is neither `None` nor
a dict, yet `MotorDashboardPlot.__init__` does not raise — the empty list is
falsy, so `line_config or ***` silently replaces it with the empty dict. -/
theorem c5_counterexample :
    MotorDashboardPlot.initRaises (PyVal.list []) = false ∧
    (PyVal.list []).isNone = false ∧
    isDict (PyVal.list []) = false :=
  ⟨rfl, rfl, rfl⟩

/-- C7: the base-class callbacks `MotorDashboardPlot.set_env` and
`MotorDashboardPlot.on_reset_begin`, and `StepPlot.on_reset_end`, are
no-ops: for every plot state and every argument they return the state
unchanged. -/
theorem c7_noop_callbacks :
    (∀ (p : MotorDashboardPlotState) (env : Env),
        MotorDashboardPlot.set_env p env = p) ∧
    (∀ p : MotorDashboardPlotState, MotorDashboardPlot.on_reset_begin p = p) ∧
    (∀ (p : StepPlotState) (k : ℤ) (st rf : List ℚ),
        StepPlot.on_reset_end p k st rf = p) :=
  ⟨fun _ _ => rfl, fun _ => rfl, fun _ _ _ _ => rfl⟩

/-- C8: for every `line_config` accepted by `MotorDashboardPlot.__init__`
(and likewise through `StatePlot.__init__`), the constructed `_line_cfg`
is Python `None`, because it is assigned the return value of `dict.update`;
the caller-supplied configuration and `_default_line_cfg` never reach the
plotting calls that unpack `_line_cfg`. -/
theorem c8_line_cfg_none (lc llc lcc : PyVal) (st : String) (w : ℚ) (uc : ℤ) :
    initLineCfgNone lc = true ∧
    statePlotInitLineCfgNone st llc w uc lcc = true := by
  have hnil : isDict (PyVal.dict []) = true := rfl
  constructor
  · cases h1 : truthy lc <;> cases h2 : isDict lc <;>
      simp [initLineCfgNone, MotorDashboardPlot.init, h1, h2, hnil, PyVal.isNone]
  · cases h1 : truthy llc <;> cases h2 : isDict llc <;>
      cases h3 : truthy lcc <;> cases h4 : isDict lcc <;>
      simp [statePlotInitLineCfgNone, StatePlot.init, StepPlot.init,
        MotorDashboardPlot.init, h1, h2, h3, h4, hnil, PyVal.isNone]

/-- `MeanEpisodeRewardPlot.update` never touches the episode accounting:
`_episode_length`, `episode_count` and `_reward_sum` are unchanged by it. -/
lemma meanUpdate_frame (s : MeanEpisodeRewardPlotState) :
    (MeanEpisodeRewardPlot.update s).1.episode_length = s.episode_length ∧
    (MeanEpisodeRewardPlot.update s).1.episode_count = s.episode_count ∧
    (MeanEpisodeRewardPlot.update s).1.reward_sum = s.reward_sum := by
  unfold MeanEpisodeRewardPlot.update
  refine ⟨?_, ?_, ?_⟩ <;> (repeat' (first | split | dsimp only))

/-- On every instance whose `x` attribute holds Python `None` (as after
`__init__`), `update` raises AttributeError at `self.x.append(...)` without
changing the state. -/
lemma meanUpdate_x_none (s : MeanEpisodeRewardPlotState)
    (h : s.x = Option.none) :
    MeanEpisodeRewardPlot.update s = (s, some (PyErr.attributeError "append")) := by
  unfold MeanEpisodeRewardPlot.update
  rw [h]

/-- C9: `MeanEpisodeRewardPlot.initialize` reads `x_width` (and then
`reward_line_cfg`), and `update` dereferences `x` (and later reads `mode`),
none of which is ever assigned by `MeanEpisodeRewardPlot`,
`EpisodeBasedPlot` or `MotorDashboardPlot`; hence on every instance from the
public constructor, `initialize` fails with AttributeError on `x_width`, and
`update` fails with an attribute-lookup error on the `None`-valued `x`. -/
theorem c9_missing_attributes :
    MeanEpisodeRewardPlot.init.x_width = Option.none ∧
    MeanEpisodeRewardPlot.init.reward_line_cfg = Option.none ∧
    MeanEpisodeRewardPlot.init.mode = Option.none ∧
    MeanEpisodeRewardPlot.init.x = Option.none ∧
    (∀ (s : MeanEpisodeRewardPlotState) (ax : AxisState),
        s.x_width = Option.none →
        (MeanEpisodeRewardPlot.initAxis s ax).2 =
          some (PyErr.attributeError "x_width")) ∧
    (∀ s : MeanEpisodeRewardPlotState, s.x = Option.none →
        (MeanEpisodeRewardPlot.update s).2 =
          some (PyErr.attributeError "append")) := by
  refine ⟨rfl, rfl, rfl, rfl, ?_, ?_⟩
  · intro s ax h
    unfold MeanEpisodeRewardPlot.initAxis
    simp [h]
  · intro s h
    rw [meanUpdate_x_none s h]

/-- Witness for C9 on a freshly constructed instance. -/
theorem c9_missing_attributes_witness :
    (MeanEpisodeRewardPlot.initAxis MeanEpisodeRewardPlot.init axis0).2 =
      some (PyErr.attributeError "x_width") ∧
    (MeanEpisodeRewardPlot.update MeanEpisodeRewardPlot.init).2 =
      some (PyErr.attributeError "append") :=
  ⟨c9_missing_attributes.2.2.2.2.1 MeanEpisodeRewardPlot.init axis0 rfl,
   c9_missing_attributes.2.2.2.2.2 MeanEpisodeRewardPlot.init rfl⟩

/-- C10 (amended): `reset` never modifies `_episode_length` (it retains the
previous episode's value); a reset with `_episode_length <= 0` modifies only
`episode_count` (+1) and `_reward_sum` (set to 0); but a reset that follows
a non-empty episode (`_episode_length > 0`) on an instance whose `x` is
still `None` invokes `update`, which raises AttributeError, so the reset
propagates the exception and leaves `episode_count`, `_reward_sum` and the
reward buffer untouched — the stale-length append the claim describes never
happens. -/
theorem c10_reset_frame (s : MeanEpisodeRewardPlotState) :
    (MeanEpisodeRewardPlot.reset s).1.episode_length = s.episode_length ∧
    (s.episode_length ≤ 0 →
        MeanEpisodeRewardPlot.reset s =
          ({ s with episode_count := s.episode_count + 1, reward_sum := 0 },
           Option.none)) ∧
    (0 < s.episode_length → s.x = Option.none →
        MeanEpisodeRewardPlot.reset s =
          (s, some (PyErr.attributeError "append"))) := by
  refine ⟨?_, ?_, ?_⟩
  · by_cases hlen : 0 < s.episode_length
    · have hf := (meanUpdate_frame s).1
      rcases hu : MeanEpisodeRewardPlot.update s with ⟨s1, e⟩
      rw [hu] at hf
      rw [MeanEpisodeRewardPlot.reset, if_pos hlen, hu]
      cases e <;> simpa using hf
    · rw [MeanEpisodeRewardPlot.reset, if_neg hlen]
  · intro hle
    rw [MeanEpisodeRewardPlot.reset, if_neg (by omega)]
  · intro hlen hx
    rw [MeanEpisodeRewardPlot.reset, if_pos hlen, meanUpdate_x_none s hx]

/-- Witness for C10: the empty-episode branch on a fresh instance and the
failing branch right after one step. -/
theorem c10_reset_frame_witness :
    MeanEpisodeRewardPlot.reset MeanEpisodeRewardPlot.init =
      ({ MeanEpisodeRewardPlot.init with episode_count := 0 + 1, reward_sum := 0 },
       Option.none) ∧
    MeanEpisodeRewardPlot.reset mfix =
      (mfix, some (PyErr.attributeError "append")) :=
  ⟨(c10_reset_frame MeanEpisodeRewardPlot.init).2.1
      (by norm_num [MeanEpisodeRewardPlot.init]),
   (c10_reset_frame mfix).2.2 (by norm_num [mfix, MeanEpisodeRewardPlot.step,
      MeanEpisodeRewardPlot.init]) rfl⟩

/-- Counterexample to C10 as stated: after one step (`k = 1`, `reward = 5`)
the following `reset` raises instead of updating the accounting —
`episode_count` stays 0 (not incremented) and `_reward_sum` stays 5 (not
zeroed). -/
theorem c10_counterexample :
    (MeanEpisodeRewardPlot.reset mfix).1.episode_count = 0 ∧
    (MeanEpisodeRewardPlot.reset mfix).1.reward_sum = 5 ∧
    (MeanEpisodeRewardPlot.reset mfix).2 =
      some (PyErr.attributeError "append") := by
  have h : MeanEpisodeRewardPlot.reset mfix =
      (mfix, some (PyErr.attributeError "append")) :=
    (c10_reset_frame mfix).2.2 (by norm_num [mfix, MeanEpisodeRewardPlot.step,
      MeanEpisodeRewardPlot.init]) rfl
  rw [h]
  refine ⟨rfl, ?_, rfl⟩
  norm_num [mfix, MeanEpisodeRewardPlot.step, MeanEpisodeRewardPlot.init]

/-- C2 (evaluation at the failing input, supporting the code_bug verdict):
on a fresh `MeanEpisodeRewardPlot` the episode `step(k=1, reward=5)` is
recorded (`_reward_sum = 5`, `_episode_length = 1`), but the following
`reset` raises AttributeError inside `update` (the buffers are still the
`None` values from `__init__`, because `initialize` itself dies on the
missing `x_width`), so no mean-reward value is ever appended. -/
theorem c2_reset_append_fails :
    mfix.reward_sum = 5 ∧
    mfix.episode_length = 1 ∧
    MeanEpisodeRewardPlot.reset mfix =
      (mfix, some (PyErr.attributeError "append")) ∧
    mfix.reward_data = Option.none ∧
    mfix.x = Option.none := by
  refine ⟨?_, rfl, ?_, rfl, rfl⟩
  · norm_num [mfix, MeanEpisodeRewardPlot.step, MeanEpisodeRewardPlot.init]
  · rw [MeanEpisodeRewardPlot.reset, if_pos (by decide), meanUpdate_x_none mfix rfl]

/-- Over any sequence of `StepPlot.update` calls (with arbitrary `_t` values
in between), the upper x-limit never decreases. -/
lemma updateSeq_upper (ts : List ℚ) :
    ∀ (p : StepPlotState) (ax : AxisState), p.axis = some ax →
    ∃ ax2, (StepPlot.updateSeq p ts).axis = some ax2 ∧ ax.xlim.2 ≤ ax2.xlim.2 := by
  induction ts with
  | nil =>
      intro p ax h
      exact ⟨ax, h, le_refl _⟩
  | cons tv ts ih =>
      intro p ax h
      have hstep : (StepPlot.update { p with t := tv }).1.axis =
          some { ax with xlim := (max tv ax.xlim.2 - p.x_width, max tv ax.xlim.2) } := by
        simp [StepPlot.update, h]
      obtain ⟨ax2, hax2, hle⟩ := ih (StepPlot.update { p with t := tv }).1 _ hstep
      refine ⟨ax2, ?_, ?_⟩
      · simpa [StepPlot.updateSeq] using hax2
      · calc ax.xlim.2 ≤ max tv ax.xlim.2 := le_max_right _ _
          _ ≤ ax2.xlim.2 := by simpa using hle

/-- C3: each `StepPlot.update` call sets the x-limits to
`(u - x_width, u)` with `u = max(_t, previous upper limit)`; hence after
every update the x-window has width exactly `x_width`, and over any sequence
of update calls the upper x-limit is monotonically non-decreasing. -/
theorem c3_update_window (p : StepPlotState) (ax : AxisState) (ts : List ℚ)
    (h : p.axis = some ax) :
    (StepPlot.update p).2 = Option.none ∧
    (StepPlot.update p).1.axis =
      some { ax with xlim := (max p.t ax.xlim.2 - p.x_width, max p.t ax.xlim.2) } ∧
    max p.t ax.xlim.2 - (max p.t ax.xlim.2 - p.x_width) = p.x_width ∧
    ax.xlim.2 ≤ max p.t ax.xlim.2 ∧
    ∃ ax2, (StepPlot.updateSeq p ts).axis = some ax2 ∧ ax.xlim.2 ≤ ax2.xlim.2 := by
  refine ⟨?_, ?_, by ring, le_max_right _ _, updateSeq_upper ts p ax h⟩
  · simp [StepPlot.update, h]
  · simp [StepPlot.update, h]

/-- Witness for C3 at `c3fix` (`t = 3/2`, previous window `(-1, 0)`,
`x_width = 1`): the update succeeds and moves the window to `(1/2, 3/2)`. -/
theorem c3_update_window_witness :
    (StepPlot.update c3fix).2 = Option.none ∧
    (StepPlot.update c3fix).1.axis = some { axis0 with xlim := (1/2, 3/2) } := by
  have h := c3_update_window c3fix { axis0 with xlim := (-1, 0) } [2] rfl
  refine ⟨h.1, ?_⟩
  rw [h.2.1]
  norm_num [c3fix, axis0, max_def]

/-- `l[m] = v` succeeds for a natural index within bounds. -/
lemma pySet_natCast (l : List ℚ) (m : ℕ) (v : ℚ) (hm : m < l.length) :
    pySet l (m : ℤ) v = .ok (l.set m v) := by
  have h0 : ¬ ((m : ℤ) < 0) := not_lt.mpr (Int.natCast_nonneg m)
  have h1 : (0 : ℤ) ≤ (m : ℤ) ∧ (m : ℤ) < (l.length : ℤ) :=
    ⟨Int.natCast_nonneg m, by exact_mod_cast hm⟩
  simp only [pySet]
  rw [if_neg h0, if_pos h1, Int.toNat_natCast]

/-- C4 (amended): when `tau` exactly divides `x_width`
(`x_width = N * tau`, `N = no_x_points >= 1`), the time counter is at an
exact step multiple `t = n * tau`, and `_t_data`, `_state_data`, `_ref_data`
hold `N` entries each, a `StatePlot.step` call raises nothing, overwrites
exactly one entry (index `(n+1) % N`) of each relevant buffer in place
(`_ref_data` only when the state is referenced), and leaves all three buffer
lengths equal to `N`; no such step grows or shrinks a buffer. (Without the
divisibility hypothesis the write can fall outside the buffer and the step
raises IndexError, writing nothing: see the counterexample.) -/
theorem c4_step_preserves_buffers
    (p : StatePlotState) (k : ℤ) (st rf : List ℚ) (a : Option ActionV) (r : ℚ)
    (done : Bool) (τ : ℚ) (N n : ℕ) (si : ℤ) (sv rv : ℚ) (ax : AxisState)
    (hτp : p.tau = some τ) (hτ : 0 < τ) (hw : p.x_width = (N : ℚ) * τ)
    (hN : 1 ≤ N) (ht : p.t = (n : ℚ) * τ)
    (hsi : p.state_idx = some si)
    (hst : pyGet st si = .ok sv) (hrf : pyGet rf si = .ok rv)
    (hax : p.axis = some ax)
    (hlt : p.t_data.length = N) (hls : p.state_data.length = N)
    (hlr : p.ref_data.length = N) :
    (StatePlot.step p k st rf a r done).2 = Option.none ∧
    (StatePlot.step p k st rf a r done).1.t_data =
      p.t_data.set ((n + 1) % N) (p.t + τ) ∧
    (StatePlot.step p k st rf a r done).1.state_data =
      p.state_data.set ((n + 1) % N) sv ∧
    (StatePlot.step p k st rf a r done).1.ref_data =
      (if refTruthy p.referenced then p.ref_data.set ((n + 1) % N) rv
       else p.ref_data) ∧
    (StatePlot.step p k st rf a r done).1.t_data.length = N ∧
    (StatePlot.step p k st rf a r done).1.state_data.length = N ∧
    (StatePlot.step p k st rf a r done).1.ref_data.length = N := by
  have hN0 : 0 < N := hN
  have hτ0 : τ ≠ 0 := ne_of_gt hτ
  have hNq : (0 : ℚ) < (N : ℚ) := by exact_mod_cast hN0
  have hw0 : ¬ (p.x_width = 0) := by
    rw [hw]
    exact (mul_pos hNq hτ).ne'
  have ht' : p.t + τ = (((n + 1 : ℕ)) : ℚ) * τ := by
    rw [ht]
    push_cast
    ring
  have hidx : writeIdx (p.t + τ) p.x_width τ = (((n + 1) % N : ℕ) : ℤ) := by
    rw [ht', hw]
    exact writeIdx_natCast_mul τ hτ (n + 1) N
  have hmod : (n + 1) % N < N := Nat.mod_lt _ hN0
  have hset1 : pySet p.t_data ((((n + 1) % N : ℕ)) : ℤ) (p.t + τ) =
      .ok (p.t_data.set ((n + 1) % N) (p.t + τ)) :=
    pySet_natCast _ _ _ (by rw [hlt]; exact hmod)
  have hset2 : pySet p.state_data ((((n + 1) % N : ℕ)) : ℤ) sv =
      .ok (p.state_data.set ((n + 1) % N) sv) :=
    pySet_natCast _ _ _ (by rw [hls]; exact hmod)
  have hset3 : pySet p.ref_data ((((n + 1) % N : ℕ)) : ℤ) rv =
      .ok (p.ref_data.set ((n + 1) % N) rv) :=
    pySet_natCast _ _ _ (by rw [hlr]; exact hmod)
  set m := (n + 1) % N with hm
  cases done <;> cases href : refTruthy p.referenced <;>
    simp [StatePlot.step, stepDone, hτp, hsi, hst, hrf, hw0, hτ0, hidx,
      hset1, hset2, hset3, hax, href, hlt, hls, hlr]

/-- Witness for C4 at `c4fix` (`tau = 1/2`, `x_width = 1`, `N = 2`, `n = 0`,
state value 5, reference value 7). -/
theorem c4_step_preserves_buffers_witness :
    (StatePlot.step c4fix 1 [5] [7] Option.none 0 false).2 = Option.none ∧
    (StatePlot.step c4fix 1 [5] [7] Option.none 0 false).1.t_data =
      c4fix.t_data.set ((0 + 1) % 2) (c4fix.t + 1/2) ∧
    (StatePlot.step c4fix 1 [5] [7] Option.none 0 false).1.state_data =
      c4fix.state_data.set ((0 + 1) % 2) 5 ∧
    (StatePlot.step c4fix 1 [5] [7] Option.none 0 false).1.ref_data =
      (if refTruthy c4fix.referenced then c4fix.ref_data.set ((0 + 1) % 2) 7
       else c4fix.ref_data) ∧
    (StatePlot.step c4fix 1 [5] [7] Option.none 0 false).1.t_data.length = 2 ∧
    (StatePlot.step c4fix 1 [5] [7] Option.none 0 false).1.state_data.length = 2 ∧
    (StatePlot.step c4fix 1 [5] [7] Option.none 0 false).1.ref_data.length = 2 :=
  c4_step_preserves_buffers c4fix 1 [5] [7] Option.none 0 false (1/2) 2 0 0 5 7
    axis0 rfl (by norm_num) (by norm_num [c4fix]) (by norm_num)
    (by norm_num [c4fix]) rfl rfl rfl rfl rfl rfl rfl

/-- Counterexample to C4 as stated: on `c4bad` (`tau = 2/5` does not divide
`x_width = 1`; buffers allocated with `no_x_points = 2` entries) the first
step is fine, but the second step computes index
`int((4/5) / (2/5)) = 2` and raises IndexError, overwriting nothing. -/
theorem c4_counterexample :
    (StatePlot.step c4bad 1 [1/2] [1/3] Option.none 0 false).2 = Option.none ∧
    (StatePlot.step c4bad1 2 [1/2] [1/3] Option.none 0 false).2 =
      some PyErr.indexError ∧
    (StatePlot.step c4bad1 2 [1/2] [1/3] Option.none 0 false).1.t_data =
      c4bad1.t_data ∧
    (StatePlot.step c4bad1 2 [1/2] [1/3] Option.none 0 false).1.state_data =
      c4bad1.state_data ∧
    (StatePlot.step c4bad1 2 [1/2] [1/3] Option.none 0 false).1.ref_data =
      c4bad1.ref_data := by
  have h1 : c4bad1 =
      { c4bad with
          t := 2/5
          t_data := [0, 2/5]
          state_data := [0, 1/2]
          ref_data := [0, 1/3] } := by
    norm_num [c4bad1, c4bad, StatePlot.step, stepDone, refTruthy,
      pySet, pyGet, writeIdx, pyMod, pyInt]
  refine ⟨?_, ?_, ?_, ?_, ?_⟩ <;>
    norm_num [h1, c4bad, StatePlot.step, stepDone, refTruthy,
      pySet, pyGet, writeIdx, pyMod, pyInt]

/-- `StatePlot.step` always advances `_t` by `tau` (also on its error paths)
and preserves `_tau`. -/
lemma statePlot_step_t (p : StatePlotState) (k : ℤ) (st rf : List ℚ)
    (a : Option ActionV) (r : ℚ) (d : Bool) (τ : ℚ) (h : p.tau = some τ) :
    (StatePlot.step p k st rf a r d).1.t = p.t + τ ∧
    (StatePlot.step p k st rf a r d).1.tau = some τ := by
  unfold StatePlot.step stepDone
  rw [h]
  refine ⟨?_, ?_⟩ <;> (repeat' (first | split | dsimp only)) <;> simp_all

/-- `RewardPlot.step` always advances `_t` by `tau` (also on its error paths)
and preserves `_tau`. -/
lemma rewardPlot_step_t (p : RewardPlotState) (k : ℤ) (st rf : List ℚ)
    (a : Option ActionV) (r : ℚ) (d : Bool) (τ : ℚ) (h : p.tau = some τ) :
    (RewardPlot.step p k st rf a r d).1.t = p.t + τ ∧
    (RewardPlot.step p k st rf a r d).1.tau = some τ := by
  unfold RewardPlot.step stepDone
  rw [h]
  refine ⟨?_, ?_⟩ <;> (repeat' (first | split | dsimp only)) <;> simp_all

/-- `ActionPlot.step` always advances `_t` by `tau` (also on its error paths)
and preserves `_tau`. -/
lemma actionPlot_step_t (p : ActionPlotState) (k : ℤ) (st rf : List ℚ)
    (a : Option ActionV) (r : ℚ) (d : Bool) (τ : ℚ) (h : p.tau = some τ) :
    (ActionPlot.step p k st rf a r d).1.t = p.t + τ ∧
    (ActionPlot.step p k st rf a r d).1.tau = some τ := by
  unfold ActionPlot.step stepDone
  rw [h]
  refine ⟨?_, ?_⟩ <;> (repeat' (first | split | dsimp only)) <;> simp_all

/-- Iterated `StatePlot.step` advances `_t` by exactly `n * tau`. -/
lemma statePlot_stepN_t (p : StatePlotState) (k : ℤ) (st rf : List ℚ)
    (a : Option ActionV) (r : ℚ) (d : Bool) (τ : ℚ) (h : p.tau = some τ)
    (n : ℕ) :
    (StatePlot.stepN p k st rf a r d n).t = p.t + n * τ ∧
    (StatePlot.stepN p k st rf a r d n).tau = some τ := by
  induction n with
  | zero => exact ⟨by simp [StatePlot.stepN], by simpa [StatePlot.stepN] using h⟩
  | succ m ih =>
      have hs := statePlot_step_t (StatePlot.stepN p k st rf a r d m) k st rf a r d τ ih.2
      refine ⟨?_, hs.2⟩
      show (StatePlot.step (StatePlot.stepN p k st rf a r d m) k st rf a r d).1.t = _
      rw [hs.1, ih.1]
      push_cast
      ring

/-- Iterated `RewardPlot.step` advances `_t` by exactly `n * tau`. -/
lemma rewardPlot_stepN_t (p : RewardPlotState) (k : ℤ) (st rf : List ℚ)
    (a : Option ActionV) (r : ℚ) (d : Bool) (τ : ℚ) (h : p.tau = some τ)
    (n : ℕ) :
    (RewardPlot.stepN p k st rf a r d n).t = p.t + n * τ ∧
    (RewardPlot.stepN p k st rf a r d n).tau = some τ := by
  induction n with
  | zero => exact ⟨by simp [RewardPlot.stepN], by simpa [RewardPlot.stepN] using h⟩
  | succ m ih =>
      have hs := rewardPlot_step_t (RewardPlot.stepN p k st rf a r d m) k st rf a r d τ ih.2
      refine ⟨?_, hs.2⟩
      show (RewardPlot.step (RewardPlot.stepN p k st rf a r d m) k st rf a r d).1.t = _
      rw [hs.1, ih.1]
      push_cast
      ring

/-- Iterated `ActionPlot.step` advances `_t` by exactly `n * tau`. -/
lemma actionPlot_stepN_t (p : ActionPlotState) (k : ℤ) (st rf : List ℚ)
    (a : Option ActionV) (r : ℚ) (d : Bool) (τ : ℚ) (h : p.tau = some τ)
    (n : ℕ) :
    (ActionPlot.stepN p k st rf a r d n).t = p.t + n * τ ∧
    (ActionPlot.stepN p k st rf a r d n).tau = some τ := by
  induction n with
  | zero => exact ⟨by simp [ActionPlot.stepN], by simpa [ActionPlot.stepN] using h⟩
  | succ m ih =>
      have hs := actionPlot_step_t (ActionPlot.stepN p k st rf a r d m) k st rf a r d τ ih.2
      refine ⟨?_, hs.2⟩
      show (ActionPlot.step (ActionPlot.stepN p k st rf a r d m) k st rf a r d).1.t = _
      rw [hs.1, ih.1]
      push_cast
      ring

/-- When the computed index is inside `_t_data`, `RewardPlot.step` stores the
new `_t` there, whatever happens afterwards. -/
lemma rewardPlot_step_store (p : RewardPlotState) (k : ℤ) (st rf : List ℚ)
    (a : Option ActionV) (r : ℚ) (d : Bool) (τ : ℚ) (j : ℕ)
    (h : p.tau = some τ) (hw0 : p.x_width ≠ 0) (hτ0 : τ ≠ 0)
    (hidx : writeIdx (p.t + τ) p.x_width τ = (j : ℤ))
    (hj : j < p.t_data.length) :
    (RewardPlot.step p k st rf a r d).1.t_data = p.t_data.set j (p.t + τ) := by
  have hset := pySet_natCast p.t_data j (p.t + τ) hj
  unfold RewardPlot.step stepDone
  rw [h]
  dsimp only
  rw [if_neg hw0, if_neg hτ0, hidx]
  try dsimp only
  rw [hset]
  repeat' (first | dsimp only | split)

/-- When the computed index is inside `_t_data`, `ActionPlot.step` stores the
new `_t` there, whatever happens afterwards. -/
lemma actionPlot_step_store (p : ActionPlotState) (k : ℤ) (st rf : List ℚ)
    (a : Option ActionV) (r : ℚ) (d : Bool) (τ : ℚ) (j : ℕ)
    (h : p.tau = some τ) (hw0 : p.x_width ≠ 0) (hτ0 : τ ≠ 0)
    (hidx : writeIdx (p.t + τ) p.x_width τ = (j : ℤ))
    (hj : j < p.t_data.length) :
    (ActionPlot.step p k st rf a r d).1.t_data = p.t_data.set j (p.t + τ) := by
  have hset := pySet_natCast p.t_data j (p.t + τ) hj
  unfold ActionPlot.step stepDone
  rw [h]
  dsimp only
  rw [if_neg hw0, if_neg hτ0, hidx]
  try dsimp only
  rw [hset]
  repeat' (first | dsimp only | split)

/-- When the state and reference reads succeed and the computed index is
inside `_t_data`, `StatePlot.step` stores the new `_t` there. -/
lemma statePlot_step_store (p : StatePlotState) (k : ℤ) (st rf : List ℚ)
    (a : Option ActionV) (r : ℚ) (d : Bool) (τ : ℚ) (j : ℕ) (si : ℤ)
    (sv rv : ℚ)
    (h : p.tau = some τ) (hsi : p.state_idx = some si)
    (hst : pyGet st si = .ok sv) (hrf : pyGet rf si = .ok rv)
    (hw0 : p.x_width ≠ 0) (hτ0 : τ ≠ 0)
    (hidx : writeIdx (p.t + τ) p.x_width τ = (j : ℤ))
    (hj : j < p.t_data.length) :
    (StatePlot.step p k st rf a r d).1.t_data = p.t_data.set j (p.t + τ) := by
  have hset := pySet_natCast p.t_data j (p.t + τ) hj
  unfold StatePlot.step stepDone
  rw [h]
  dsimp only
  rw [hsi]
  dsimp only
  rw [hst, hrf]
  dsimp only
  rw [if_neg hw0, if_neg hτ0, hidx]
  try dsimp only
  rw [hset]
  repeat' (first | dsimp only | split)

/-- C6 (amended): for each `StepPlot` subclass (`StatePlot`, `RewardPlot`,
`ActionPlot`), each `step` call increases `_t` by exactly `tau` — even when
a later buffer write fails — so after `n` step calls `_t` has advanced by
exactly `n * tau` (exact rational arithmetic); and each step stores the new
`_t` into `_t_data` at the computed modular index provided that index lies
within `_t_data` (otherwise the step raises IndexError and stores nothing:
see the counterexample). -/
theorem c6_time_accounting
    (pS : StatePlotState) (pR : RewardPlotState) (pA : ActionPlotState)
    (k : ℤ) (st rf : List ℚ) (a : Option ActionV) (r : ℚ) (d : Bool)
    (τ : ℚ) (n : ℕ)
    (hS : pS.tau = some τ) (hR : pR.tau = some τ) (hA : pA.tau = some τ) :
    (StatePlot.step pS k st rf a r d).1.t = pS.t + τ ∧
    (RewardPlot.step pR k st rf a r d).1.t = pR.t + τ ∧
    (ActionPlot.step pA k st rf a r d).1.t = pA.t + τ ∧
    (StatePlot.stepN pS k st rf a r d n).t = pS.t + n * τ ∧
    (RewardPlot.stepN pR k st rf a r d n).t = pR.t + n * τ ∧
    (ActionPlot.stepN pA k st rf a r d n).t = pA.t + n * τ ∧
    (∀ j : ℕ, pR.x_width ≠ 0 → τ ≠ 0 →
        writeIdx (pR.t + τ) pR.x_width τ = (j : ℤ) → j < pR.t_data.length →
        (RewardPlot.step pR k st rf a r d).1.t_data =
          pR.t_data.set j (pR.t + τ)) ∧
    (∀ j : ℕ, pA.x_width ≠ 0 → τ ≠ 0 →
        writeIdx (pA.t + τ) pA.x_width τ = (j : ℤ) → j < pA.t_data.length →
        (ActionPlot.step pA k st rf a r d).1.t_data =
          pA.t_data.set j (pA.t + τ)) ∧
    (∀ (j : ℕ) (si : ℤ) (sv rv : ℚ), pS.state_idx = some si →
        pyGet st si = .ok sv → pyGet rf si = .ok rv →
        pS.x_width ≠ 0 → τ ≠ 0 →
        writeIdx (pS.t + τ) pS.x_width τ = (j : ℤ) → j < pS.t_data.length →
        (StatePlot.step pS k st rf a r d).1.t_data =
          pS.t_data.set j (pS.t + τ)) :=
  ⟨(statePlot_step_t pS k st rf a r d τ hS).1,
   (rewardPlot_step_t pR k st rf a r d τ hR).1,
   (actionPlot_step_t pA k st rf a r d τ hA).1,
   (statePlot_stepN_t pS k st rf a r d τ hS n).1,
   (rewardPlot_stepN_t pR k st rf a r d τ hR n).1,
   (actionPlot_stepN_t pA k st rf a r d τ hA n).1,
   fun j hw0 hτ0 hidx hj =>
     rewardPlot_step_store pR k st rf a r d τ j hR hw0 hτ0 hidx hj,
   fun j hw0 hτ0 hidx hj =>
     actionPlot_step_store pA k st rf a r d τ j hA hw0 hτ0 hidx hj,
   fun j si sv rv hsi hst hrf hw0 hτ0 hidx hj =>
     statePlot_step_store pS k st rf a r d τ j si sv rv hS hsi hst hrf
       hw0 hτ0 hidx hj⟩

/-- Witness for C6 at the fixtures with `tau = 1/2`, over 3 steps, with the
reward-plot store at index 1. -/
theorem c6_time_accounting_witness :
    (RewardPlot.stepN c6fixR 1 [5] [7] Option.none 0 false 3).t =
      c6fixR.t + ((3 : ℕ) : ℚ) * (1/2) ∧
    (RewardPlot.step c6fixR 1 [5] [7] Option.none 0 false).1.t_data =
      c6fixR.t_data.set 1 (c6fixR.t + 1/2) := by
  have h := c6_time_accounting c6fixS c6fixR c6fixA 1 [5] [7] Option.none 0
    false (1/2) 3 rfl rfl rfl
  refine ⟨h.2.2.2.2.1, ?_⟩
  exact h.2.2.2.2.2.2.1 1 (by norm_num [c6fixR]) (by norm_num)
    (by norm_num [c6fixR, writeIdx, pyMod, pyInt]) (by norm_num [c6fixR])

/-- Counterexample to C6 as stated: on `c6bad` (`tau = 2/3`, `x_width = 1`,
`_t_data` of length `no_x_points = 1`) the very first step advances `_t` to
`2/3` but computes index `int((2/3) / (2/3)) = 1`, raises IndexError, and
does not store the new `_t` anywhere: `_t_data` is still `[0]`. -/
theorem c6_counterexample :
    (RewardPlot.step c6bad 1 [5] [7] Option.none 0 false).1.t = 2/3 ∧
    (RewardPlot.step c6bad 1 [5] [7] Option.none 0 false).1.t_data = [0] ∧
    (RewardPlot.step c6bad 1 [5] [7] Option.none 0 false).2 =
      some PyErr.indexError := by
  refine ⟨?_, ?_, ?_⟩ <;>
    norm_num [c6bad, RewardPlot.step, stepDone, pySet, writeIdx, pyMod, pyInt]
